import Mathlib

/-!
Shallow embedding of `setup_cares.py` (the pycares build-orchestration
script).  External effects — subprocess creation, the filesystem, the
process environment, the platform name — are modelled by a system oracle
(`Sys`).  Every function that the script runs against the outside world is
translated into a pure Lean function from the oracle to a result together
with a trace of the externally visible events it performs (process
invocations and file-existence checks), so that claims of the form
"command X is / is not invoked" become statements about the trace.
-/

/-- Environment mapping, as an association list (first binding wins,
mirroring a Python dict observed through lookups). -/
def Env : Type := List (String × String)

instance : DecidableEq Env := by
  unfold Env
  infer_instance

/-- Lookup of an environment variable (`env.get(k)` / `env[k]`). -/
def envGet (e : Env) (k : String) : Option String :=
  (e.find? (fun p => p.1 == k)).map (fun p => p.2)

/-- Setting an environment variable (`env[k] = v` on a dict). -/
def envSet (e : Env) (k v : String) : Env :=
  (k, v) :: e.filter (fun p => p.1 != k)

/-- Outcome of attempting to spawn one external process:
either the OS refuses with an errno (e.g. ENOENT for a missing
executable), or the process runs and exits with a return code, a captured
stdout text and a captured stderr text. -/
inductive ProcOutcome : Type
  | osError (errno : Nat)
  | exited (returncode : Int) (stdout stderr : String)
  deriving DecidableEq, Repr

/-- `errno.ENOENT`. -/
def ENOENT : Nat := 2

/-- The system oracle: platform name (`sys.platform`), path separator
(`os.path.join`), process environment (`os.environ`), filesystem
existence (`os.path.exists`), and the outcome of spawning a process from
an argument list (`subprocess.Popen(args=list)`) or from a shell command
string (`subprocess.Popen(..., shell=True)`). -/
structure Sys : Type where
  platform : String
  pathSep : String
  environ : Env
  pathExists : String → Bool
  runList : List String → ProcOutcome
  runShell : String → ProcOutcome

/-- One externally visible event of the script: spawning a process from
an argument list, spawning a shell command, checking a path for
existence, or delegating to the standard `build_ext.build_extensions`. -/
inductive Event : Type
  | popenList (cmdline : List String) (cwd : Option String) (env : Option Env)
  | popenShell (cmd : String) (cwd : Option String) (env : Option Env)
  | checkExists (path : String) (result : Bool)
  | delegate
  deriving DecidableEq

/-- Whether an event is a process invocation. -/
def isPopen : Event → Bool
  | Event.popenList _ _ _ => true
  | Event.popenShell _ _ _ => true
  | _ => false

/-- The environment an invocation event passes to the spawned process. -/
def evEnv : Event → Option Env
  | Event.popenList _ _ e => e
  | Event.popenShell _ _ e => e
  | _ => none

/-- Python exceptions that the script can raise. -/
inductive PyErr : Type
  | distutilsError (msg : String)
  | osError (errno : Nat)
  | systemExit (msg : String)
  | systemExitList (toks : List String)
  deriving DecidableEq

/-- `os.path.join(a, b)` with an explicit separator. -/
def pathJoin (sep a b : String) : String := a ++ sep ++ b

/-- `s.rstrip("\n")`: remove trailing newline characters. -/
def rstripNewline (s : String) : String :=
  String.mk ((s.data.reverse.dropWhile (fun c => c == '\n')).reverse)

/-- Python `str.split()` whitespace predicate. -/
def isPySpace (c : Char) : Bool :=
  c == ' ' || c == '\t' || c == '\n' || c == '\r' || c == '\x0b' || c == '\x0c'

/-- Splitting a character list at whitespace characters, keeping empty
pieces; `acc` holds the current piece reversed. -/
def splitWsAux : List Char → List Char → List String
  | [], acc => [String.mk acc.reverse]
  | c :: cs, acc =>
      if isPySpace c then String.mk acc.reverse :: splitWsAux cs []
      else splitWsAux cs (c :: acc)

/-- Python `s.split()`: split on whitespace runs, dropping empty pieces. -/
def pySplit (s : String) : List String :=
  (splitWsAux s.data []).filter (fun t => t != "")

/-- Python `s.lstrip(chars)`: drop leading characters that occur in
`chars`. -/
def pyLstrip (chars s : String) : String :=
  String.mk (s.data.dropWhile (fun c => chars.data.contains c))

/-- Python `s[-2:]`: the last two characters. -/
def lastTwo (s : String) : String :=
  String.mk (s.data.drop (s.data.length - 2))

/-- Whether `needle` occurs at the start of `l`. -/
def chPre : List Char → List Char → Bool
  | [], _ => true
  | _ :: _, [] => false
  | a :: as, b :: bs => a == b && chPre as bs

/-- Whether `needle` occurs as a contiguous sublist of `hay`. -/
def chSub (needle : List Char) : List Char → Bool
  | [] => chPre needle []
  | c :: cs => chPre needle (c :: cs) || chSub needle cs

/-- Python `needle in hay` on strings: substring containment. -/
def strContains (hay needle : String) : Bool :=
  chSub needle.data hay.data

/-- Python `s.startswith(pre)`. -/
def strStarts (s pre : String) : Bool :=
  chPre pre.data s.data

/-- The message of the `DistutilsError` raised by `exec_process` on a
nonzero return code:
`'Got return value %d while executing "%s", stderr output was:\n%s'
 % (returncode, " ".join(cmdline), stderr.rstrip("\n"))`. -/
def procFailMsg (rc : Int) (joined err : String) : String :=
  "Got return value " ++ toString rc ++ " while executing \"" ++ joined ++
    "\", stderr output was:\n" ++ rstripNewline err

/-- `'"%s" is not present on this system' % name`. -/
def notPresentMsg (name : String) : String :=
  "\"" ++ name ++ "\" is not present on this system"

/-- `exec_process(cmdline, ...)` with `cmdline` a list of strings (the
form used by `exec_make`).  Returns the captured stdout on a zero return
code; raises `DistutilsError` on a nonzero return code, and on an OSError
with `errno == ENOENT` when `catch_enoent` is set (naming `cmdline[0]`);
re-raises any other OSError.  The trace records the single `Popen`
attempt. -/
def exec_process (sys : Sys) (cmdline : List String) (catch_enoent : Bool)
    (cwd : Option String) (env : Option Env) :
    Except PyErr String × List Event :=
  let ev := Event.popenList cmdline cwd env
  match sys.runList cmdline with
  | ProcOutcome.osError e =>
      if e == ENOENT && catch_enoent then
        (Except.error (PyErr.distutilsError (notPresentMsg (cmdline.headD ""))), [ev])
      else
        (Except.error (PyErr.osError e), [ev])
  | ProcOutcome.exited rc out err =>
      if rc != 0 then
        (Except.error (PyErr.distutilsError
          (procFailMsg rc (String.intercalate " " cmdline) err)), [ev])
      else
        (Except.ok out, [ev])

/-- `exec_process(cmdline, ...)` with `cmdline` a single string run
through the shell (`shell=True`), the form used for `vcbuild.bat`.
Python iterates a string per character, so `cmdline[0]` is the first
character and `" ".join(cmdline)` interleaves spaces between the
characters. -/
def strCharJoin (s : String) : String :=
  String.intercalate " " (s.data.map (fun c => String.mk [c]))

/-- First character of a string, as a one-character string. -/
def strHead : String → String
  | s => match s.data with
         | [] => ""
         | c :: _ => String.mk [c]

/-- The shell-string form of `exec_process`. -/
def exec_process_str (sys : Sys) (cmdline : String) (catch_enoent : Bool)
    (cwd : Option String) (env : Option Env) :
    Except PyErr String × List Event :=
  let ev := Event.popenShell cmdline cwd env
  match sys.runShell cmdline with
  | ProcOutcome.osError e =>
      if e == ENOENT && catch_enoent then
        (Except.error (PyErr.distutilsError (notPresentMsg (strHead cmdline))), [ev])
      else
        (Except.error (PyErr.osError e), [ev])
  | ProcOutcome.exited rc out err =>
      if rc != 0 then
        (Except.error (PyErr.distutilsError
          (procFailMsg rc (strCharJoin cmdline) err)), [ev])
      else
        (Except.ok out, [ev])

/-- The candidate build-tool names tried by `exec_make`:
`["make"]`, with `"gmake"` inserted in front when `"bsd" in sys.platform`. -/
def makeCandidates (platform : String) : List String :=
  if strContains platform "bsd" then ["gmake", "make"] else ["make"]

/-- The loop body of `exec_make`: try each candidate in order with
`catch_enoent=False`; an OSError with errno ENOENT moves on to the next
candidate, any other outcome (success, DistutilsError from a nonzero
return code, or another OSError) is returned as is; when all candidates
are missing, raise `DistutilsError('"make" is not present on this
system')`. -/
def execMakeLoop (sys : Sys) (cmdline : List String) (cwd : Option String)
    (env : Option Env) : List String → Except PyErr String × List Event
  | [] => (Except.error (PyErr.distutilsError (notPresentMsg "make")), [])
  | m :: rest =>
      match exec_process sys (m :: cmdline) false cwd env with
      | (Except.error (PyErr.osError e), t) =>
          if e == ENOENT then
            let p := execMakeLoop sys cmdline cwd env rest
            (p.1, t ++ p.2)
          else (Except.error (PyErr.osError e), t)
      | (r, t) => (r, t)

/-- `exec_make(cmdline, ...)`. -/
def exec_make (sys : Sys) (cmdline : List String) (cwd : Option String)
    (env : Option Env) : Except PyErr String × List Event :=
  execMakeLoop sys cmdline cwd env (makeCandidates sys.platform)

/-- The merged CFLAGS value computed in `build_cares.build`:
`' '.join(x for x in ('-fPIC', env.get('CFLAGS', None)) if x)`. -/
def mergedCflags (prior : Option String) : String :=
  match prior with
  | none => "-fPIC"
  | some s => if s = "" then "-fPIC" else "-fPIC " ++ s

/-- The `build()` closure of `cares_build_ext.build_cares`: copy the
environment, set CFLAGS to the merged value, then run the external build
tool (`vcbuild.bat` through the shell under MSVC, `make libcares.a`
through `exec_make` otherwise) in the c-ares directory. -/
def buildStep (sys : Sys) (win32_msvc : Bool) (cares_dir : String) :
    Except PyErr Unit × List Event :=
  let env2 := envSet sys.environ "CFLAGS" (mergedCflags (envGet sys.environ "CFLAGS"))
  if win32_msvc then
    let p := exec_process_str sys "cmd.exe /C vcbuild.bat" true (some cares_dir) (some env2)
    (p.1.map (fun _ => ()), p.2)
  else
    let p := exec_make sys ["libcares.a"] (some cares_dir) (some env2)
    (p.1.map (fun _ => ()), p.2)

/-- The `clean()` closure of `cares_build_ext.build_cares`. -/
def cleanStep (sys : Sys) (win32_msvc : Bool) (cares_dir : String) :
    Except PyErr Unit × List Event :=
  if win32_msvc then
    let p := exec_process_str sys "cmd.exe /C vcbuild.bat clean" true (some cares_dir) none
    (p.1.map (fun _ => ()), p.2)
  else
    let p := exec_make sys ["clean"] (some cares_dir) none
    (p.1.map (fun _ => ()), p.2)

/-- `cares_build_ext.build_cares`: clean first when the
cares-clean-compile flag is set, then check whether the prebuilt artifact
exists and build only when it does not. -/
def build_cares (sys : Sys) (win32_msvc : Bool) (cares_clean_compile : Bool)
    (cares_dir cares_lib : String) : Except PyErr Unit × List Event :=
  let c := if cares_clean_compile then cleanStep sys win32_msvc cares_dir
           else (Except.ok (), [])
  match c with
  | (Except.error e, t) => (Except.error e, t)
  | (Except.ok _, t) =>
      let ex := sys.pathExists cares_lib
      let t2 := t ++ [Event.checkExists cares_lib ex]
      if ex then (Except.ok (), t2)
      else
        let b := buildStep sys win32_msvc cares_dir
        (b.1, t2 ++ b.2)

/-- Sequencing of traced computations: propagate the first error, keep
the accumulated event trace. -/
def tbind {α β : Type} (x : Except PyErr α × List Event)
    (f : α → Except PyErr β × List Event) : Except PyErr β × List Event :=
  match x with
  | (Except.error e, t) => (Except.error e, t)
  | (Except.ok a, t) =>
      let p := f a
      (p.1, t ++ p.2)

/-- Pipe result of `call`: tokenised stdout and stderr. -/
structure PipeResult : Type where
  stdoutToks : List String
  stderrToks : List String
  deriving DecidableEq

/-- `call(command, opt)`: run `command` through the shell, whitespace-split
the captured stdout (stripping the leading characters of `opt` from each
token when `opt` is given) and stderr, and raise `SystemExit(pipe.stderr)`
on a nonzero return code.  A `Popen` OSError (no try around it in the
source) propagates. -/
def call (sys : Sys) (command : String) (opt : Option String) :
    Except PyErr PipeResult × List Event :=
  let ev := Event.popenShell command none none
  match sys.runShell command with
  | ProcOutcome.osError e => (Except.error (PyErr.osError e), [ev])
  | ProcOutcome.exited rc out err =>
      let outToks :=
        match opt with
        | none => pySplit out
        | some o => (pySplit out).map (pyLstrip o)
      let errToks := pySplit err
      if rc != 0 then
        (Except.error (PyErr.systemExitList errToks), [ev])
      else
        (Except.ok ⟨outToks, errToks⟩, [ev])

/-- The command string built by `pkg_config_version_check`:
`'pkg-config --print-errors --exists "%s >= %s"' % (pkg, version)`. -/
def vcheckCmd (pkg version : String) : String :=
  "pkg-config --print-errors --exists \"" ++ pkg ++ " >= " ++ version ++ "\""

/-- The command string built by `pkg_config_parse`:
`"pkg-config %s %s" % (opt, pkg)`. -/
def parseCmd (opt pkg : String) : String :=
  "pkg-config " ++ opt ++ " " ++ pkg

/-- `pkg_config_version_check(pkg, version)`: run the pkg-config existence
check through `call`; the bare `except:` turns any failure into
`SystemExit('Error: %s >= %s not found' % (pkg, version))`. -/
def pkg_config_version_check (sys : Sys) (pkg version : String) :
    Except PyErr Unit × List Event :=
  match call sys (vcheckCmd pkg version) none with
  | (Except.ok _, t) => (Except.ok (), t)
  | (Except.error _, t) =>
      (Except.error (PyErr.systemExit
        ("Error: " ++ pkg ++ " >= " ++ version ++ " not found")), t)

/-- `pkg_config_parse(opt, pkg)`: query pkg-config and return the
tokenised stdout with each token's leading `opt[-2:]` characters
stripped. -/
def pkg_config_parse (sys : Sys) (opt pkg : String) :
    Except PyErr (List String) × List Event :=
  tbind (call sys (parseCmd opt pkg) (some (lastTwo opt)))
    (fun pipe => (Except.ok pipe.stdoutToks, []))

/-- Decimal digits to a number. -/
def digitsToNat : List Char → Nat → Nat
  | [], acc => acc
  | c :: cs, acc => digitsToNat cs (acc * 10 + (c.toNat - '0'.toNat))

/-- Split a character list on dots; `acc` holds the current piece
reversed. -/
def splitDot : List Char → List Char → List (List Char)
  | [], acc => [acc.reverse]
  | c :: cs, acc =>
      if c == '.' then acc.reverse :: splitDot cs []
      else splitDot cs (c :: acc)

/-- Numeric components of a dotted version string. -/
def verParts (s : String) : List Nat :=
  (splitDot s.data []).map (fun l => digitsToNat l 0)

/-- Lexicographic comparison of version components; a missing component
counts as zero, so an empty left list is below or equal to anything. -/
def partsLE : List Nat → List Nat → Bool
  | [], _ => true
  | a :: as, [] => a == 0 && partsLE as []
  | a :: as, b :: bs => a < b || (a == b && partsLE as bs)

/-- `a ≤ b` on dotted version strings. -/
def verLE (a b : String) : Bool := partsLE (verParts a) (verParts b)

/-- Modelled from the spec: the exit code of the external tool
`pkg-config --exists "pkg >= required"` when the installed copy of `pkg`
has version `installed` — zero when the installed version meets the
required minimum, nonzero otherwise.  (pkg-config itself is not part of
this repository; this models the behaviour the script relies on.) -/
def pkgConfigExistsRC (installed required : String) : Int :=
  if verLE required installed then 0 else 1

/-- One element of a compiler setting list: `add_library` /
`add_library_dir` receive a single string in some call sites and a whole
list in others (the system-libcares path passes the list itself), so the
accumulator element is either. -/
inductive StrOrList : Type
  | str (s : String)
  | list (l : List String)
  deriving DecidableEq

/-- The distutils compiler driver, restricted to the state this script
reads or writes. -/
structure Compiler : Type where
  compiler_type : String
  dll_libraries : List String
  macros : List (String × Int)
  libraries : List StrOrList
  library_dirs : List StrOrList
  include_dirs : List String
  runtime_library_dirs : List String
  deriving DecidableEq

/-- The extension target (`self.extensions[0]`), restricted to the fields
this script writes. -/
structure Extension : Type where
  extra_objects : List String
  extra_link_args : List String
  deriving DecidableEq

/-- The state handed to the standard compilation procedure. -/
structure BEOut : Type where
  compiler : Compiler
  ext0 : Extension
  deriving DecidableEq

/-- The pkg-config queries of the system-libcares branch of
`build_extensions`, in source order: version check, then
`--libs-only-L` (runtime library dirs), `--cflags-only-I` (include
dirs), `--libs-only-L` (library dirs), `--libs-only-l` (libraries). -/
def pkgLists (sys : Sys) (req : String) :
    Except PyErr (List String × List String × List String × List String) × List Event :=
  tbind (pkg_config_version_check sys "libcares" req) (fun _ =>
  tbind (pkg_config_parse sys "--libs-only-L" "libcares") (fun rtdirs =>
  tbind (pkg_config_parse sys "--cflags-only-I" "libcares") (fun incdirs =>
  tbind (pkg_config_parse sys "--libs-only-L" "libcares") (fun libdirs =>
  tbind (pkg_config_parse sys "--libs-only-l" "libcares") (fun libs =>
  (Except.ok (rtdirs, incdirs, libdirs, libs), []))))))

/-- The pure state update of the system-libcares branch: append
`/usr/include` and the bundled `src` directory to the include list, then
hand the four lists to the compiler driver (each only when nonempty,
matching the `len(...) > 0` guards; `set_include_dirs` and
`set_runtime_library_dirs` replace, `add_library` and `add_library_dir`
append one element). -/
def applySysLists (srcdir : String) (comp : Compiler)
    (rt inc0 libd libs : List String) : Compiler :=
  let inc := inc0 ++ ["/usr/include", srcdir]
  let c1 := if libs.length > 0 then
      { comp with libraries := comp.libraries ++ [StrOrList.list libs] } else comp
  let c2 := if libd.length > 0 then
      { c1 with library_dirs := c1.library_dirs ++ [StrOrList.list libd] } else c1
  let c3 := if inc.length > 0 then { c2 with include_dirs := inc } else c2
  if rt.length > 0 then { c3 with runtime_library_dirs := rt } else c3

/-- The whole system-libcares branch of `build_extensions`. -/
def sysPart (sys : Sys) (req srcdir : String) (comp : Compiler) :
    Except PyErr Compiler × List Event :=
  tbind (pkgLists sys req) (fun q =>
    (Except.ok (applySysLists srcdir comp q.1 q.2.1 q.2.2.1 q.2.2.2), []))

/-- The pure updates between the system-libcares branch and
`build_cares`: define the `PYCARES_BUNDLED` macro when building the
bundled copy, and under mingw32 drop every `dll_libraries` entry whose
name starts with `msvcr`. -/
def midSetup (comp1 : Compiler) (use_system : Bool) : Compiler :=
  let comp2 := if use_system = false then
      { comp1 with macros := comp1.macros ++ [("PYCARES_BUNDLED", (1 : Int))] }
    else comp1
  if comp2.compiler_type = "mingw32" then
    { comp2 with dll_libraries :=
        comp2.dll_libraries.filter (fun lib => !(strStarts lib "msvcr")) }
  else comp2

/-- The pure updates after `build_cares`: mingw32 library plumbing, the
`extra_objects` assignment, the bundled `src` include directory, and the
platform-specific libraries and link arguments. -/
def finishSetup (platform cdir caresLib srcdir : String)
    (comp3 : Compiler) (e0 : Extension) : Compiler × Extension :=
  let comp4 := if comp3.compiler_type = "mingw32" then
      { comp3 with
          library_dirs := comp3.library_dirs ++ [StrOrList.str cdir],
          libraries := comp3.libraries ++ [StrOrList.str "cares"] }
    else comp3
  let e1 := { e0 with extra_objects := [caresLib] }
  let comp5 := { comp4 with include_dirs := comp4.include_dirs ++ [srcdir] }
  if strStarts platform "linux" then
    ({ comp5 with libraries := comp5.libraries ++ [StrOrList.str "rt"] }, e1)
  else if platform = "win32" then
    if comp5.compiler_type = "msvc" then
      ({ comp5 with libraries :=
            (comp5.libraries ++ [StrOrList.str "advapi32"]) ++
              [StrOrList.str "iphlpapi", StrOrList.str "psapi", StrOrList.str "ws2_32"] },
       { e1 with extra_link_args := ["/NODEFAULTLIB:libcmt"] })
    else
      ({ comp5 with libraries :=
            comp5.libraries ++
              [StrOrList.str "iphlpapi", StrOrList.str "psapi", StrOrList.str "ws2_32"] },
       e1)
  else (comp5, e1)

/-- The artifact path `self.cares_lib`: `deps/c-ares/cares.lib` under
MSVC, `deps/c-ares/libcares.a` otherwise (joined with the host path
separator). -/
def caresLibPath (sys : Sys) (comp1 : Compiler) (use_system : Bool) : String :=
  if (midSetup comp1 use_system).compiler_type = "msvc" then
    pathJoin sys.pathSep (pathJoin sys.pathSep "deps" "c-ares") "cares.lib"
  else
    pathJoin sys.pathSep (pathJoin sys.pathSep "deps" "c-ares") "libcares.a"

/-- The pure compiler/extension state updates of `build_extensions`
around `build_cares`, as one function of the state after the
system-libcares branch. -/
def beCore (sys : Sys) (comp1 : Compiler) (use_system : Bool) (e0 : Extension) :
    Compiler × Extension :=
  let cdir := pathJoin sys.pathSep "deps" "c-ares"
  let srcdir := pathJoin sys.pathSep cdir "src"
  finishSetup sys.platform cdir (caresLibPath sys comp1 use_system) srcdir
    (midSetup comp1 use_system) e0

/-- `cares_build_ext.build_extensions`, as the function from the initial
compiler/extension state to the state handed to
`build_ext.build_extensions` (the trailing `Event.delegate` marks that
hand-off). -/
def build_extensions (sys : Sys) (use_system cares_clean_compile : Bool)
    (req : String) (comp0 : Compiler) (e0 : Extension) :
    Except PyErr BEOut × List Event :=
  let cdir := pathJoin sys.pathSep "deps" "c-ares"
  let srcdir := pathJoin sys.pathSep cdir "src"
  tbind (if use_system then sysPart sys req srcdir comp0 else (Except.ok comp0, []))
    (fun comp1 =>
      tbind (if use_system = false then
               build_cares sys ((midSetup comp1 use_system).compiler_type = "msvc")
                 cares_clean_compile cdir (caresLibPath sys comp1 use_system)
             else (Except.ok (), []))
        (fun _ =>
          (Except.ok ⟨(beCore sys comp1 use_system e0).1,
                      (beCore sys comp1 use_system e0).2⟩,
           [Event.delegate])))

/-- The first process invocation performed by the `clean()` closure:
`cmd.exe /C vcbuild.bat clean` through the shell under MSVC, otherwise
the first make candidate with the `clean` target. -/
def cleanInvEvent (sys : Sys) (msvc : Bool) (cdir : String) : Event :=
  if msvc then Event.popenShell "cmd.exe /C vcbuild.bat clean" (some cdir) none
  else Event.popenList ((makeCandidates sys.platform).headD "make" :: ["clean"])
         (some cdir) none

/-- A concrete oracle: a Linux host where every spawned process succeeds
with stdout `hello`, the artifact file exists, and CFLAGS is unset. -/
def baseSys : Sys where
  platform := "linux2"
  pathSep := "/"
  environ := [("PATH", "/bin")]
  pathExists := fun _ => true
  runList := fun _ => ProcOutcome.exited 0 "hello" ""
  runShell := fun _ => ProcOutcome.exited 0 "" ""

/-- A host where every spawned process exits with return code 3. -/
def sysExit3 : Sys :=
  { baseSys with runList := fun _ => ProcOutcome.exited 3 "hello" "boom\n\n" }

/-- A host where the installed libcares is version 1.10: the pkg-config
existence check against a higher minimum fails with exit code 1. -/
def sysPkgOld : Sys :=
  { baseSys with
      runShell := fun c =>
        if c = vcheckCmd "libcares" "1.11" then
          ProcOutcome.exited (pkgConfigExistsRC "1.10" "1.11") "" "version mismatch"
        else ProcOutcome.exited 0 "" "" }

/-- A host where the installed libcares is version 1.12: the pkg-config
existence check against minimum 1.11 succeeds. -/
def sysPkgNew : Sys :=
  { baseSys with
      runShell := fun c =>
        if c = vcheckCmd "libcares" "1.11" then
          ProcOutcome.exited (pkgConfigExistsRC "1.12" "1.11") "" ""
        else ProcOutcome.exited 0 "" "" }

/-- A host where no executable can be spawned (every `Popen` from an
argument list reports ENOENT). -/
def sysEnoent : Sys :=
  { baseSys with runList := fun _ => ProcOutcome.osError ENOENT }

/-- A FreeBSD host where `gmake` exists and succeeds while every other
executable is missing. -/
def sysBsdGmake : Sys where
  platform := "freebsd8"
  pathSep := "/"
  environ := [("PATH", "/bin")]
  pathExists := fun _ => true
  runList := fun c => if c.headD "" = "gmake" then ProcOutcome.exited 0 "done" ""
                      else ProcOutcome.osError ENOENT
  runShell := fun _ => ProcOutcome.exited 0 "" ""

/-- A host whose pkg-config reports two library directories, one include
directory and one library for libcares. -/
def sysPkg7 : Sys :=
  { baseSys with
      runShell := fun c =>
        if c = parseCmd "--libs-only-L" "libcares" then
          ProcOutcome.exited 0 "-L/usr/lib -L/opt/lib" ""
        else if c = parseCmd "--cflags-only-I" "libcares" then
          ProcOutcome.exited 0 "-I/usr/inc" ""
        else if c = parseCmd "--libs-only-l" "libcares" then
          ProcOutcome.exited 0 "-lcares" ""
        else ProcOutcome.exited 0 "" "" }

/-- A host where the prebuilt artifact is absent and CFLAGS is already
set to `-O2`. -/
def sysNoLib : Sys :=
  { baseSys with
      environ := [("CFLAGS", "-O2"), ("PATH", "/bin")]
      pathExists := fun _ => false }

/-- A Windows host where every spawned process succeeds. -/
def sysWin : Sys :=
  { baseSys with platform := "win32", pathSep := "\\" }

/-- An initial compiler driver state with empty setting lists. -/
def compInit : Compiler where
  compiler_type := "unix"
  dll_libraries := []
  macros := []
  libraries := []
  library_dirs := []
  include_dirs := []
  runtime_library_dirs := []

/-- A mingw32 compiler state whose dll list holds one default C runtime
and one other library. -/
def compMingw : Compiler :=
  { compInit with compiler_type := "mingw32", dll_libraries := ["msvcr90", "kernel32"] }

/-- An MSVC compiler state. -/
def compMsvc : Compiler :=
  { compInit with compiler_type := "msvc" }

/-- An initial extension target state. -/
def extInit : Extension where
  extra_objects := []
  extra_link_args := []

theorem strAppendAssoc (a b c : String) : a ++ b ++ c = a ++ (b ++ c) := by
  rcases a with ⟨da⟩; rcases b with ⟨db⟩; rcases c with ⟨dc⟩
  show String.mk (da ++ db ++ dc) = String.mk (da ++ (db ++ dc))
  rw [List.append_assoc]

theorem exec_process_trace (sys : Sys) (cmdline : List String) (b : Bool)
    (cwd : Option String) (env : Option Env) :
    (exec_process sys cmdline b cwd env).2 = [Event.popenList cmdline cwd env] := by
  unfold exec_process
  cases sys.runList cmdline <;> dsimp only <;> split <;> rfl

theorem exec_process_str_trace (sys : Sys) (cmdline : String) (b : Bool)
    (cwd : Option String) (env : Option Env) :
    (exec_process_str sys cmdline b cwd env).2 = [Event.popenShell cmdline cwd env] := by
  unfold exec_process_str
  cases sys.runShell cmdline <;> dsimp only <;> split <;> rfl

/-- C1: for every external command run through `exec_process`, a nonzero
return code raises a `DistutilsError` whose message contains, in order,
the return code, the space-joined command line and the captured stderr
text with trailing newlines stripped; a zero return code returns the
captured stdout. -/
theorem claim1_exec_process_failure (sys : Sys) (cmdline : List String)
    (cwd : Option String) (env : Option Env) (rc : Int) (out err : String)
    (h : sys.runList cmdline = ProcOutcome.exited rc out err) :
    (rc ≠ 0 → ∃ s1 s2 s3,
      (exec_process sys cmdline true cwd env).1 =
        Except.error (PyErr.distutilsError
          (s1 ++ toString rc ++ s2 ++ String.intercalate " " cmdline ++ s3 ++
            rstripNewline err)))
    ∧ (rc = 0 → (exec_process sys cmdline true cwd env).1 = Except.ok out) := by
  constructor
  · intro hrc
    refine ⟨"Got return value ", " while executing \"", "\", stderr output was:\n", ?_⟩
    have hb : (rc != 0) = true := by simpa using hrc
    simp [exec_process, h, hb, procFailMsg]
  · intro hrc
    subst hrc
    simp [exec_process, h]

/-- Witness for C1 at return code 3 with stderr `boom\n\n`, and at return
code 0. -/
theorem claim1_witness :
    (∃ s1 s2 s3,
      (exec_process sysExit3 ["mytool", "arg"] true none none).1 =
        Except.error (PyErr.distutilsError
          (s1 ++ toString (3 : Int) ++ s2 ++ String.intercalate " " ["mytool", "arg"] ++
            s3 ++ rstripNewline "boom\n\n")))
    ∧ (exec_process baseSys ["mytool"] true none none).1 = Except.ok "hello" :=
  ⟨(claim1_exec_process_failure sysExit3 ["mytool", "arg"] none none 3 "hello" "boom\n\n"
      rfl).1 (by decide),
   (claim1_exec_process_failure baseSys ["mytool"] none none 0 "hello" "" rfl).2 rfl⟩

/-- C2: when the prebuilt artifact exists and the clean flag is unset,
`build_cares` performs no process invocation at all (neither the build
tool nor the cleaning command): its whole event trace is the one
existence check. -/
theorem claim2_cached_no_invocation (sys : Sys) (msvc : Bool) (cdir clib : String)
    (h : sys.pathExists clib = true) :
    build_cares sys msvc false cdir clib = (Except.ok (), [Event.checkExists clib true])
    ∧ ∀ ev ∈ (build_cares sys msvc false cdir clib).2, isPopen ev = false := by
  have hb : build_cares sys msvc false cdir clib =
      (Except.ok (), [Event.checkExists clib true]) := by
    simp [build_cares, h]
  refine ⟨hb, ?_⟩
  rw [hb]
  intro ev hev
  simp only [List.mem_singleton] at hev
  subst hev
  rfl

/-- Witness for C2: the artifact exists, the clean flag is unset, and the
trace holds no invocation. -/
theorem claim2_witness :
    build_cares baseSys false false "deps/c-ares" "deps/c-ares/libcares.a" =
      (Except.ok (), [Event.checkExists "deps/c-ares/libcares.a" true]) :=
  (claim2_cached_no_invocation baseSys false "deps/c-ares" "deps/c-ares/libcares.a" rfl).1

theorem execMakeLoop_cons_trace (sys : Sys) (c : List String) (cwd : Option String)
    (env : Option Env) (m : String) (ms : List String) :
    ∃ t, (execMakeLoop sys c cwd env (m :: ms)).2 =
      Event.popenList (m :: c) cwd env :: t := by
  cases ho : sys.runList (m :: c) with
  | osError e =>
      by_cases he : (e == ENOENT) = true
      · refine ⟨(execMakeLoop sys c cwd env ms).2, ?_⟩
        simp [execMakeLoop, exec_process, ho, he]
      · refine ⟨[], ?_⟩
        simp [execMakeLoop, exec_process, ho, he]
  | exited rc out err =>
      by_cases hrc : (rc != 0) = true
      · exact ⟨[], by simp [execMakeLoop, exec_process, ho, hrc]⟩
      · exact ⟨[], by simp [execMakeLoop, exec_process, ho, hrc]⟩

theorem makeCandidates_ne_nil (p : String) :
    ∃ m ms, makeCandidates p = m :: ms ∧ (makeCandidates p).headD "make" = m := by
  unfold makeCandidates
  split
  · exact ⟨"gmake", ["make"], rfl, rfl⟩
  · exact ⟨"make", [], rfl, rfl⟩

theorem cleanStep_trace_head (sys : Sys) (msvc : Bool) (cdir : String) :
    ∃ t, (cleanStep sys msvc cdir).2 = cleanInvEvent sys msvc cdir :: t := by
  cases msvc with
  | false =>
      obtain ⟨m, ms, hm, hh⟩ := makeCandidates_ne_nil sys.platform
      obtain ⟨t, ht⟩ := execMakeLoop_cons_trace sys ["clean"] (some cdir) none m ms
      refine ⟨t, ?_⟩
      simp only [cleanStep, cleanInvEvent, exec_make, Bool.false_eq_true, if_false]
      rw [hm]
      simpa using ht
  | true =>
      refine ⟨[], ?_⟩
      have h := exec_process_str_trace sys "cmd.exe /C vcbuild.bat clean" true (some cdir) none
      simp [cleanStep, cleanInvEvent, h]

theorem build_cares_clean_trace (sys : Sys) (msvc : Bool) (cdir clib : String) :
    ∃ post, (build_cares sys msvc true cdir clib).2 = (cleanStep sys msvc cdir).2 ++ post := by
  unfold build_cares
  rcases h : cleanStep sys msvc cdir with ⟨r, t⟩
  cases r with
  | error e => exact ⟨[], by simp [h]⟩
  | ok u =>
      by_cases he : sys.pathExists clib = true
      · exact ⟨[Event.checkExists clib true], by simp [h, he]⟩
      · have he2 : sys.pathExists clib = false := by simpa using he
        exact ⟨[Event.checkExists clib false] ++ (buildStep sys msvc cdir).2,
          by simp [h, he2]⟩

/-- C3: when the cares-clean-compile flag is set, the very first event of
`build_cares` is the invocation of the cleaning command (`vcbuild.bat
clean` through the shell under MSVC, the first make candidate with target
`clean` otherwise) — in particular it happens whether or not the artifact
exists, and before any existence check of the artifact. -/
theorem claim3_clean_invoked_first (sys : Sys) (msvc : Bool) (cdir clib : String) :
    isPopen (cleanInvEvent sys msvc cdir) = true
    ∧ ∃ rest, (build_cares sys msvc true cdir clib).2 =
        cleanInvEvent sys msvc cdir :: rest := by
  constructor
  · unfold cleanInvEvent
    split <;> rfl
  · obtain ⟨t, ht⟩ := cleanStep_trace_head sys msvc cdir
    obtain ⟨post, hp⟩ := build_cares_clean_trace sys msvc cdir clib
    exact ⟨t ++ post, by rw [hp, ht]; simp⟩

/-- C4: a pkg-config version check against an installed version below the
required minimum fails with `SystemExit` whose message is exactly
`Error: <pkg> >= <version> not found`; an installed version meeting the
minimum passes without raising. -/
theorem claim4_version_check (sys : Sys) (pkg required installed out err : String)
    (h : sys.runShell (vcheckCmd pkg required) =
      ProcOutcome.exited (pkgConfigExistsRC installed required) out err) :
    (verLE required installed = false →
      (pkg_config_version_check sys pkg required).1 =
        Except.error (PyErr.systemExit
          ("Error: " ++ pkg ++ " >= " ++ required ++ " not found")))
    ∧ (verLE required installed = true →
      (pkg_config_version_check sys pkg required).1 = Except.ok ()) := by
  constructor <;> intro hv <;>
    simp [pkg_config_version_check, call, h, pkgConfigExistsRC, hv]

/-- Witness for C4: installed 1.10 against required minimum 1.11 fails
with the exact message; installed 1.12 passes. -/
theorem claim4_witness :
    verLE "1.11" "1.10" = false
    ∧ (pkg_config_version_check sysPkgOld "libcares" "1.11").1 =
        Except.error (PyErr.systemExit
          ("Error: " ++ "libcares" ++ " >= " ++ "1.11" ++ " not found"))
    ∧ verLE "1.11" "1.12" = true
    ∧ (pkg_config_version_check sysPkgNew "libcares" "1.11").1 = Except.ok () := by
  refine ⟨by decide, ?_, by decide, ?_⟩
  · exact (claim4_version_check sysPkgOld "libcares" "1.11" "1.10" "" "version mismatch"
      rfl).1 (by decide)
  · exact (claim4_version_check sysPkgNew "libcares" "1.11" "1.12" "" "" rfl).2 (by decide)

theorem headCharGot (s : String) :
    ("Got return value " ++ s).data.head? = some 'G' := rfl

theorem headCharQuote (s : String) :
    ("\"" ++ s).data.head? = some '"' := rfl

theorem procFailMsg_ne_notPresent (rc : Int) (j e : String) :
    procFailMsg rc j e ≠ notPresentMsg "make" := by
  intro h
  have h1 : procFailMsg rc j e =
      "Got return value " ++ (toString rc ++ (" while executing \"" ++ (j ++
        ("\", stderr output was:\n" ++ rstripNewline e)))) := by
    simp [procFailMsg, strAppendAssoc]
  have h2 : notPresentMsg "make" =
      "\"" ++ ("make" ++ "\" is not present on this system") := by
    simp [notPresentMsg, strAppendAssoc]
  rw [h1, h2] at h
  have h3 := congrArg (fun s => s.data.head?) h
  simp only [headCharGot, headCharQuote] at h3
  exact absurd h3 (by decide)

theorem execMakeLoop_notPresent (sys : Sys) (c : List String) (cwd : Option String)
    (env : Option Env) :
    ∀ ms : List String,
      (execMakeLoop sys c cwd env ms).1 =
        Except.error (PyErr.distutilsError (notPresentMsg "make")) →
      (∀ m ∈ ms, sys.runList (m :: c) = ProcOutcome.osError ENOENT)
      ∧ (execMakeLoop sys c cwd env ms).2 =
          ms.map (fun m => Event.popenList (m :: c) cwd env) := by
  intro ms
  induction ms with
  | nil => intro _; exact ⟨by simp, rfl⟩
  | cons m rest ih =>
      intro hres
      cases ho : sys.runList (m :: c) with
      | exited rc out err =>
          exfalso
          by_cases hrc : (rc != 0) = true
          · have hred : (execMakeLoop sys c cwd env (m :: rest)).1 =
                Except.error (PyErr.distutilsError
                  (procFailMsg rc (String.intercalate " " (m :: c)) err)) := by
              simp [execMakeLoop, exec_process, ho, hrc]
            rw [hred] at hres
            simp only [Except.error.injEq, PyErr.distutilsError.injEq] at hres
            exact procFailMsg_ne_notPresent rc _ err hres
          · have hred : (execMakeLoop sys c cwd env (m :: rest)).1 = Except.ok out := by
              simp [execMakeLoop, exec_process, ho, hrc]
            rw [hred] at hres
            exact absurd hres (by simp)
      | osError e =>
          by_cases he : (e == ENOENT) = true
          · have heq : e = ENOENT := by simpa using he
            have hred1 : (execMakeLoop sys c cwd env (m :: rest)).1 =
                (execMakeLoop sys c cwd env rest).1 := by
              simp [execMakeLoop, exec_process, ho, he]
            have hred2 : (execMakeLoop sys c cwd env (m :: rest)).2 =
                Event.popenList (m :: c) cwd env :: (execMakeLoop sys c cwd env rest).2 := by
              simp [execMakeLoop, exec_process, ho, he]
            rw [hred1] at hres
            obtain ⟨hall, htr⟩ := ih hres
            refine ⟨?_, ?_⟩
            · intro m2 hm2
              rcases List.mem_cons.mp hm2 with h1 | h2
              · subst h1; rw [ho, heq]
              · exact hall m2 h2
            · rw [hred2, htr]; rfl
          · exfalso
            have hred : (execMakeLoop sys c cwd env (m :: rest)).1 =
                Except.error (PyErr.osError e) := by
              simp [execMakeLoop, exec_process, ho, he]
            rw [hred] at hres
            simp at hres

/-- C5: an external command whose executable is missing (ENOENT) is
reported through `exec_process` as a `DistutilsError` naming the tool and
saying it `is not present on this system` rather than as the OS error;
and `exec_make` produces its own `"make" is not present on this system`
message only after every candidate make name has been attempted (the
trace holds one invocation per candidate) and every attempt came back
ENOENT. -/
theorem claim5_missing_tool (sys : Sys) (cmdline : List String)
    (cwd : Option String) (env : Option Env) :
    (sys.runList cmdline = ProcOutcome.osError ENOENT →
      (exec_process sys cmdline true cwd env).1 =
        Except.error (PyErr.distutilsError (notPresentMsg (cmdline.headD ""))))
    ∧ ((exec_make sys cmdline cwd env).1 =
          Except.error (PyErr.distutilsError (notPresentMsg "make")) →
        (∀ m ∈ makeCandidates sys.platform,
          sys.runList (m :: cmdline) = ProcOutcome.osError ENOENT)
        ∧ (exec_make sys cmdline cwd env).2 =
            (makeCandidates sys.platform).map
              (fun m => Event.popenList (m :: cmdline) cwd env)) := by
  constructor
  · intro h
    simp [exec_process, h]
  · intro h
    exact execMakeLoop_notPresent sys cmdline cwd env (makeCandidates sys.platform) h

/-- Witness for C5: on a host where every executable is missing, the
ENOENT error names the tool, and `exec_make` attempts every candidate
before reporting make missing. -/
theorem claim5_witness :
    (exec_process sysEnoent ["mytool"] true none none).1 =
      Except.error (PyErr.distutilsError (notPresentMsg "mytool"))
    ∧ (∀ m ∈ makeCandidates sysEnoent.platform,
        sysEnoent.runList (m :: ["all"]) = ProcOutcome.osError ENOENT)
    ∧ (exec_make sysEnoent ["all"] none none).2 =
        (makeCandidates sysEnoent.platform).map
          (fun m => Event.popenList (m :: ["all"]) none none) := by
  refine ⟨?_, ?_, ?_⟩
  · exact (claim5_missing_tool sysEnoent ["mytool"] none none).1 rfl
  · exact ((claim5_missing_tool sysEnoent ["all"] none none).2 rfl).1
  · exact ((claim5_missing_tool sysEnoent ["all"] none none).2 rfl).2

theorem execMakeLoop_first_available (sys : Sys) (c : List String)
    (cwd : Option String) (env : Option Env) :
    ∀ (pre : List String) (m : String) (post : List String),
      (∀ m2 ∈ pre, sys.runList (m2 :: c) = ProcOutcome.osError ENOENT) →
      sys.runList (m :: c) ≠ ProcOutcome.osError ENOENT →
      execMakeLoop sys c cwd env (pre ++ m :: post) =
        ((exec_process sys (m :: c) false cwd env).1,
         pre.map (fun m2 => Event.popenList (m2 :: c) cwd env) ++
           [Event.popenList (m :: c) cwd env]) := by
  intro pre
  induction pre with
  | nil =>
      intro m post _ hm
      cases ho : sys.runList (m :: c) with
      | osError e =>
          have hne : e ≠ ENOENT := fun hc => hm (by rw [ho, hc])
          have he : (e == ENOENT) = false := by simpa using hne
          simp [execMakeLoop, exec_process, ho, he]
      | exited rc out err =>
          by_cases hrc : (rc != 0) = true <;>
            simp [execMakeLoop, exec_process, ho, hrc]
  | cons p ps ih =>
      intro m post hpre hm
      have hp : sys.runList (p :: c) = ProcOutcome.osError ENOENT := hpre p (by simp)
      have hrest := ih m post (fun m2 h2 => hpre m2 (by simp [h2])) hm
      simp [execMakeLoop, exec_process, hp, hrest]

/-- C6: on a platform whose name contains `bsd` the make candidates are
`gmake` then `make`, otherwise only `make`; and whenever every candidate
before some candidate `m` is missing (ENOENT) while `m` itself is not,
`exec_make` attempts exactly the candidates up to and including `m`, in
order, and its result is the outcome of running `m`. -/
theorem claim6_make_selection (sys : Sys) (cmdline : List String)
    (cwd : Option String) (env : Option Env) :
    (strContains sys.platform "bsd" = true →
      makeCandidates sys.platform = ["gmake", "make"])
    ∧ (strContains sys.platform "bsd" = false →
      makeCandidates sys.platform = ["make"])
    ∧ (∀ (pre : List String) (m : String) (post : List String),
        makeCandidates sys.platform = pre ++ m :: post →
        (∀ m2 ∈ pre, sys.runList (m2 :: cmdline) = ProcOutcome.osError ENOENT) →
        sys.runList (m :: cmdline) ≠ ProcOutcome.osError ENOENT →
        exec_make sys cmdline cwd env =
          ((exec_process sys (m :: cmdline) false cwd env).1,
           pre.map (fun m2 => Event.popenList (m2 :: cmdline) cwd env) ++
             [Event.popenList (m :: cmdline) cwd env])) := by
  refine ⟨?_, ?_, ?_⟩
  · intro h; simp [makeCandidates, h]
  · intro h; simp [makeCandidates, h]
  · intro pre m post hcands hpre hm
    unfold exec_make
    rw [hcands]
    exact execMakeLoop_first_available sys cmdline cwd env pre m post hpre hm

/-- Witness for C6: on a FreeBSD host where `gmake` exists, the candidate
order is `gmake, make` and `gmake` alone is executed. -/
theorem claim6_witness :
    makeCandidates sysBsdGmake.platform = ["gmake", "make"]
    ∧ exec_make sysBsdGmake ["libcares.a"] none none =
        (Except.ok "done", [Event.popenList ["gmake", "libcares.a"] none none]) := by
  have h := claim6_make_selection sysBsdGmake ["libcares.a"] none none
  refine ⟨h.1 (by decide), ?_⟩
  have h3 := h.2.2 [] "gmake" ["make"] (by decide) (by simp) (by decide)
  exact h3.trans rfl

/-- C7: under a system-libcares build whose pkg-config queries all
succeed, the library-name, library-directory and runtime-library-directory
lists handed to the compiler driver are exactly the whitespace-separated
tokens printed by pkg-config, in order, with each token's option prefix
stripped; the include-directory list starts with the stripped pkg-config
tokens in order, followed by the two directories the script appends. -/
theorem claim7_pkg_config_order (sys : Sys) (req srcdir : String) (comp0 : Compiler)
    (oV eV oL eL oI eI ol el : String)
    (hv : sys.runShell (vcheckCmd "libcares" req) = ProcOutcome.exited 0 oV eV)
    (hL : sys.runShell (parseCmd "--libs-only-L" "libcares") = ProcOutcome.exited 0 oL eL)
    (hI : sys.runShell (parseCmd "--cflags-only-I" "libcares") = ProcOutcome.exited 0 oI eI)
    (hl : sys.runShell (parseCmd "--libs-only-l" "libcares") = ProcOutcome.exited 0 ol el) :
    (sysPart sys req srcdir comp0).1 =
      Except.ok (applySysLists srcdir comp0
        ((pySplit oL).map (pyLstrip "-L"))
        ((pySplit oI).map (pyLstrip "-I"))
        ((pySplit oL).map (pyLstrip "-L"))
        ((pySplit ol).map (pyLstrip "-l")))
    ∧ (∀ rt inc0 libd libs : List String,
        (applySysLists srcdir comp0 rt inc0 libd libs).include_dirs =
          inc0 ++ ["/usr/include", srcdir]
        ∧ (libs ≠ [] → (applySysLists srcdir comp0 rt inc0 libd libs).libraries =
            comp0.libraries ++ [StrOrList.list libs])
        ∧ (libd ≠ [] → (applySysLists srcdir comp0 rt inc0 libd libs).library_dirs =
            comp0.library_dirs ++ [StrOrList.list libd])
        ∧ (rt ≠ [] →
            (applySysLists srcdir comp0 rt inc0 libd libs).runtime_library_dirs = rt)) := by
  constructor
  · have e1 : lastTwo "--libs-only-L" = "-L" := rfl
    have e2 : lastTwo "--cflags-only-I" = "-I" := rfl
    have e3 : lastTwo "--libs-only-l" = "-l" := rfl
    simp [sysPart, pkgLists, pkg_config_version_check, pkg_config_parse, call, tbind,
      hv, hL, hI, hl, e1, e2, e3]
  · intro rt inc0 libd libs
    refine ⟨?_, ?_, ?_, ?_⟩
    · simp only [applySysLists]
      split_ifs <;> simp_all
    · intro hne
      have hlen : 0 < libs.length := List.length_pos.mpr hne
      simp only [applySysLists]
      split_ifs <;> simp_all
    · intro hne
      have hlen : 0 < libd.length := List.length_pos.mpr hne
      simp only [applySysLists]
      split_ifs <;> simp_all
    · intro hne
      have hlen : 0 < rt.length := List.length_pos.mpr hne
      simp only [applySysLists]
      split_ifs <;> simp_all

/-- Witness for C7: pkg-config reports two library directories, one
include directory and one library; the lists handed over keep that
order. -/
theorem claim7_witness :
    (sysPart sysPkg7 "1.11" "deps/c-ares/src" compInit).1 =
      Except.ok (applySysLists "deps/c-ares/src" compInit
        ["/usr/lib", "/opt/lib"] ["/usr/inc"] ["/usr/lib", "/opt/lib"] ["cares"]) := by
  have h := (claim7_pkg_config_order sysPkg7 "1.11" "deps/c-ares/src" compInit
    "" "" "-L/usr/lib -L/opt/lib" "" "-I/usr/inc" "" "-lcares" "" rfl rfl rfl rfl).1
  exact h.trans rfl

theorem envGet_set_self (e : Env) (k v : String) :
    envGet (envSet e k v) k = some v := by
  simp [envGet, envSet, List.find?_cons]

theorem find_filter_ne (k k' : String) (h : k' ≠ k) (l : List (String × String)) :
    (l.filter (fun p => p.1 != k)).find? (fun p => p.1 == k') =
      l.find? (fun p => p.1 == k') := by
  have hkk : (k == k') = false := by
    simp only [beq_eq_false_iff_ne, ne_eq]
    exact fun hh => h hh.symm
  induction l with
  | nil => rfl
  | cons x xs ih =>
      by_cases hk : x.1 = k
      · have hx : (x.1 == k') = false := by
          simp only [beq_eq_false_iff_ne, ne_eq, hk]
          exact fun hh => h hh.symm
        simp [List.filter_cons, hk, List.find?_cons, hx, hkk, ih]
      · by_cases hx : x.1 = k'
        · simp [List.filter_cons, hk, List.find?_cons, hx, h]
        · simp [List.filter_cons, hk, List.find?_cons, hx, ih]

theorem envGet_set_other (e : Env) (k v k' : String) (h : k' ≠ k) :
    envGet (envSet e k v) k' = envGet e k' := by
  have hk : (k == k') = false := by
    simp only [beq_eq_false_iff_ne, ne_eq]
    exact fun hh => h hh.symm
  simp only [envGet, envSet, List.find?_cons, hk]
  rw [find_filter_ne k k' h e]

theorem execMakeLoop_events (sys : Sys) (c : List String) (cwd : Option String)
    (env : Option Env) :
    ∀ ms : List String, ∀ ev ∈ (execMakeLoop sys c cwd env ms).2,
      ∃ m, ev = Event.popenList (m :: c) cwd env := by
  intro ms
  induction ms with
  | nil => intro ev hev; simp [execMakeLoop] at hev
  | cons m rest ih =>
      intro ev hev
      cases ho : sys.runList (m :: c) with
      | osError e =>
          by_cases he : (e == ENOENT) = true
          · rw [show (execMakeLoop sys c cwd env (m :: rest)).2 =
                Event.popenList (m :: c) cwd env :: (execMakeLoop sys c cwd env rest).2
                from by simp [execMakeLoop, exec_process, ho, he]] at hev
            rcases List.mem_cons.mp hev with h1 | h2
            · exact ⟨m, h1⟩
            · exact ih ev h2
          · rw [show (execMakeLoop sys c cwd env (m :: rest)).2 =
                [Event.popenList (m :: c) cwd env]
                from by simp [execMakeLoop, exec_process, ho, he]] at hev
            simp only [List.mem_singleton] at hev
            exact ⟨m, hev⟩
      | exited rc out err =>
          by_cases hrc : (rc != 0) = true
          · rw [show (execMakeLoop sys c cwd env (m :: rest)).2 =
                [Event.popenList (m :: c) cwd env]
                from by simp [execMakeLoop, exec_process, ho, hrc]] at hev
            simp only [List.mem_singleton] at hev
            exact ⟨m, hev⟩
          · rw [show (execMakeLoop sys c cwd env (m :: rest)).2 =
                [Event.popenList (m :: c) cwd env]
                from by simp [execMakeLoop, exec_process, ho, hrc]] at hev
            simp only [List.mem_singleton] at hev
            exact ⟨m, hev⟩

/-- C8: in a bundled non-MSVC build where the artifact is absent, the
environment handed to every invocation of the external build tool is the
process environment with CFLAGS set to `-fPIC` merged with the prior
value — exactly `-fPIC` when CFLAGS was unset or empty, `-fPIC ` followed
by the prior value otherwise — and every other variable reads unchanged;
at least one build-tool invocation occurs. -/
theorem claim8_cflags_merge (sys : Sys) (cdir clib : String)
    (h : sys.pathExists clib = false) :
    envGet (envSet sys.environ "CFLAGS" (mergedCflags (envGet sys.environ "CFLAGS"))) "CFLAGS"
      = some (match envGet sys.environ "CFLAGS" with
              | none => "-fPIC"
              | some s => if s = "" then "-fPIC" else "-fPIC " ++ s)
    ∧ (∀ k, k ≠ "CFLAGS" →
        envGet (envSet sys.environ "CFLAGS" (mergedCflags (envGet sys.environ "CFLAGS"))) k
          = envGet sys.environ k)
    ∧ (∀ ev ∈ (build_cares sys false false cdir clib).2, isPopen ev = true →
        evEnv ev =
          some (envSet sys.environ "CFLAGS" (mergedCflags (envGet sys.environ "CFLAGS"))))
    ∧ (∃ ev ∈ (build_cares sys false false cdir clib).2, isPopen ev = true) := by
  have htr : (build_cares sys false false cdir clib).2 =
      Event.checkExists clib false ::
        (exec_make sys ["libcares.a"] (some cdir)
          (some (envSet sys.environ "CFLAGS"
            (mergedCflags (envGet sys.environ "CFLAGS"))))).2 := by
    simp [build_cares, buildStep, h]
  refine ⟨?_, ?_, ?_, ?_⟩
  · rw [envGet_set_self]
    rfl
  · intro k hk
    exact envGet_set_other sys.environ "CFLAGS" _ k hk
  · intro ev hev hp
    rw [htr] at hev
    rcases List.mem_cons.mp hev with h1 | h2
    · subst h1; exact absurd hp (by simp [isPopen])
    · obtain ⟨m, hm⟩ := execMakeLoop_events sys ["libcares.a"] (some cdir)
        (some (envSet sys.environ "CFLAGS"
          (mergedCflags (envGet sys.environ "CFLAGS"))))
        (makeCandidates sys.platform) ev h2
      subst hm
      rfl
  · obtain ⟨m, ms, hm, _⟩ := makeCandidates_ne_nil sys.platform
    obtain ⟨t, ht⟩ := execMakeLoop_cons_trace sys ["libcares.a"] (some cdir)
      (some (envSet sys.environ "CFLAGS" (mergedCflags (envGet sys.environ "CFLAGS")))) m ms
    refine ⟨Event.popenList (m :: ["libcares.a"]) (some cdir)
      (some (envSet sys.environ "CFLAGS" (mergedCflags (envGet sys.environ "CFLAGS")))),
      ?_, rfl⟩
    rw [htr]
    refine List.mem_cons_of_mem _ ?_
    show _ ∈ (exec_make sys ["libcares.a"] (some cdir) _).2
    unfold exec_make
    rw [hm, ht]
    exact List.mem_cons_self _ _

/-- Witness for C8: CFLAGS was `-O2`, the merged value read by the build
tool is `-fPIC -O2`, and PATH reads unchanged. -/
theorem claim8_witness :
    envGet (envSet sysNoLib.environ "CFLAGS"
        (mergedCflags (envGet sysNoLib.environ "CFLAGS"))) "CFLAGS" = some "-fPIC -O2"
    ∧ envGet (envSet sysNoLib.environ "CFLAGS"
        (mergedCflags (envGet sysNoLib.environ "CFLAGS"))) "PATH" = some "/bin"
    ∧ (∃ ev ∈ (build_cares sysNoLib false false "deps/c-ares"
          "deps/c-ares/libcares.a").2, isPopen ev = true) := by
  have h := claim8_cflags_merge sysNoLib "deps/c-ares" "deps/c-ares/libcares.a" rfl
  refine ⟨?_, ?_, h.2.2.2⟩
  · exact h.1.trans (by decide)
  · exact (h.2.1 "PATH" (by decide)).trans (by decide)

theorem applySysLists_type (srcdir : String) (comp : Compiler)
    (rt inc0 libd libs : List String) :
    (applySysLists srcdir comp rt inc0 libd libs).compiler_type = comp.compiler_type := by
  simp only [applySysLists]
  split_ifs <;> rfl

theorem applySysLists_dll (srcdir : String) (comp : Compiler)
    (rt inc0 libd libs : List String) :
    (applySysLists srcdir comp rt inc0 libd libs).dll_libraries = comp.dll_libraries := by
  simp only [applySysLists]
  split_ifs <;> rfl

theorem sysPart_ok (sys : Sys) (req srcdir : String) (comp : Compiler) (c1 : Compiler)
    (h : (sysPart sys req srcdir comp).1 = Except.ok c1) :
    c1.compiler_type = comp.compiler_type ∧ c1.dll_libraries = comp.dll_libraries := by
  unfold sysPart tbind at h
  rcases hp : pkgLists sys req with ⟨r, t⟩
  rw [hp] at h
  cases r with
  | error e => simp at h
  | ok q =>
      simp only [Except.ok.injEq] at h
      rw [← h]
      exact ⟨applySysLists_type srcdir comp _ _ _ _, applySysLists_dll srcdir comp _ _ _ _⟩

theorem midSetup_type (c : Compiler) (us : Bool) :
    (midSetup c us).compiler_type = c.compiler_type := by
  simp only [midSetup]
  split_ifs <;> rfl

theorem midSetup_dll (c : Compiler) (us : Bool) :
    (midSetup c us).dll_libraries =
      if c.compiler_type = "mingw32" then
        c.dll_libraries.filter (fun lib => !(strStarts lib "msvcr"))
      else c.dll_libraries := by
  simp only [midSetup]
  split_ifs <;> rfl

theorem finishSetup_objects (p cdir lib srcdir : String) (c : Compiler) (e : Extension) :
    (finishSetup p cdir lib srcdir c e).2.extra_objects = [lib] := by
  simp only [finishSetup]
  split_ifs <;> rfl

theorem finishSetup_dll (p cdir lib srcdir : String) (c : Compiler) (e : Extension) :
    (finishSetup p cdir lib srcdir c e).1.dll_libraries = c.dll_libraries := by
  simp only [finishSetup]
  split_ifs <;> rfl

theorem finishSetup_include (p cdir lib srcdir : String) (c : Compiler) (e : Extension) :
    ∃ pre, (finishSetup p cdir lib srcdir c e).1.include_dirs = pre ++ [srcdir] := by
  simp only [finishSetup]
  split_ifs <;> exact ⟨_, rfl⟩

theorem finishSetup_link_msvc (p cdir lib srcdir : String) (c : Compiler) (e : Extension)
    (hp : p = "win32") (hm : c.compiler_type = "msvc") :
    (finishSetup p cdir lib srcdir c e).2.extra_link_args = ["/NODEFAULTLIB:libcmt"] := by
  subst hp
  have hs : strStarts "win32" "linux" = false := by decide
  simp [finishSetup, hs, hm]

theorem finishSetup_link_other (p cdir lib srcdir : String) (c : Compiler) (e : Extension) :
    (finishSetup p cdir lib srcdir c e).2.extra_link_args = ["/NODEFAULTLIB:libcmt"]
    ∨ (finishSetup p cdir lib srcdir c e).2.extra_link_args = e.extra_link_args := by
  simp only [finishSetup]
  split_ifs <;> simp

theorem build_extensions_cases (sys : Sys) (us cf : Bool) (req : String)
    (comp0 : Compiler) (e0 : Extension) :
    (∃ er t, build_extensions sys us cf req comp0 e0 = (Except.error er, t))
    ∨ (∃ (comp1 : Compiler) (pre : List Event),
        ((us = true →
            (sysPart sys req
              (pathJoin sys.pathSep (pathJoin sys.pathSep "deps" "c-ares") "src") comp0).1 =
              Except.ok comp1)
          ∧ (us = false → comp1 = comp0))
        ∧ build_extensions sys us cf req comp0 e0 =
            (Except.ok ⟨(beCore sys comp1 us e0).1, (beCore sys comp1 us e0).2⟩,
             pre ++ [Event.delegate])) := by
  unfold build_extensions
  dsimp only
  rcases h1 : (if us then
      sysPart sys req (pathJoin sys.pathSep (pathJoin sys.pathSep "deps" "c-ares") "src") comp0
    else (Except.ok comp0, [])) with ⟨r1, t1⟩
  cases r1 with
  | error e =>
      left
      exact ⟨e, t1, by simp [tbind]⟩
  | ok comp1 =>
      rcases h2 : (if us = false then
          build_cares sys ((midSetup comp1 us).compiler_type = "msvc") cf
            (pathJoin sys.pathSep "deps" "c-ares") (caresLibPath sys comp1 us)
        else (Except.ok (), [])) with ⟨r2, t2⟩
      have hc1 : (us = true →
          (sysPart sys req
            (pathJoin sys.pathSep (pathJoin sys.pathSep "deps" "c-ares") "src") comp0).1 =
            Except.ok comp1)
          ∧ (us = false → comp1 = comp0) := by
        constructor
        · intro hus
          rw [hus] at h1
          simp only [if_true] at h1
          rw [h1]
        · intro hus
          rw [hus] at h1
          simp only [Bool.false_eq_true, if_false, Prod.mk.injEq] at h1
          exact (Except.ok.inj h1.1).symm
      cases r2 with
      | error e =>
          left
          refine ⟨e, t1 ++ t2, ?_⟩
          simp [tbind, h2]
      | ok u =>
          right
          refine ⟨comp1, t1 ++ t2, hc1, ?_⟩
          simp [tbind, h2, List.append_assoc]

/-- C9: on a successful run of `build_extensions`, under mingw32 the
compiler's `dll_libraries` end up equal to the original list with every
entry starting with `msvcr` removed (all others kept in order), and under
MSVC on win32 the extension's `extra_link_args` are set to
`["/NODEFAULTLIB:libcmt"]`. -/
theorem claim9_windows_runtime (sys : Sys) (us cf : Bool) (req : String)
    (comp0 : Compiler) (e0 : Extension) (out : BEOut)
    (h : (build_extensions sys us cf req comp0 e0).1 = Except.ok out) :
    (comp0.compiler_type = "mingw32" →
      out.compiler.dll_libraries =
        comp0.dll_libraries.filter (fun lib => !(strStarts lib "msvcr")))
    ∧ (comp0.compiler_type = "msvc" → sys.platform = "win32" →
      out.ext0.extra_link_args = ["/NODEFAULTLIB:libcmt"]) := by
  rcases build_extensions_cases sys us cf req comp0 e0 with ⟨er, t, heq⟩ | ⟨comp1, pre, hc1, heq⟩
  · rw [heq] at h
    simp at h
  · rw [heq] at h
    have hout : out = ⟨(beCore sys comp1 us e0).1, (beCore sys comp1 us e0).2⟩ :=
      (Except.ok.inj h).symm
    have htyp : comp1.compiler_type = comp0.compiler_type := by
      cases us with
      | true => exact (sysPart_ok sys req _ comp0 comp1 (hc1.1 rfl)).1
      | false => rw [hc1.2 rfl]
    have hdll : comp1.dll_libraries = comp0.dll_libraries := by
      cases us with
      | true => exact (sysPart_ok sys req _ comp0 comp1 (hc1.1 rfl)).2
      | false => rw [hc1.2 rfl]
    constructor
    · intro hmg
      rw [hout]
      show (beCore sys comp1 us e0).1.dll_libraries = _
      have hfin : (beCore sys comp1 us e0).1.dll_libraries =
          (midSetup comp1 us).dll_libraries := by
        simp only [beCore]
        exact finishSetup_dll _ _ _ _ _ _
      rw [hfin, midSetup_dll, htyp, hmg, hdll]
      simp
    · intro hms hpl
      rw [hout]
      show (beCore sys comp1 us e0).2.extra_link_args = _
      simp only [beCore]
      exact finishSetup_link_msvc _ _ _ _ _ _ hpl
        (by rw [midSetup_type, htyp]; exact hms)

/-- Witness for C9: under mingw32 the `msvcr90` entry is dropped and
`kernel32` kept; under MSVC on win32 the link arguments are set. -/
theorem claim9_witness :
    (∃ o : BEOut, (build_extensions sysWin true false "1.0" compMingw extInit).1 =
        Except.ok o ∧ o.compiler.dll_libraries = ["kernel32"])
    ∧ (∃ o : BEOut, (build_extensions sysWin true false "1.0" compMsvc extInit).1 =
        Except.ok o ∧ o.ext0.extra_link_args = ["/NODEFAULTLIB:libcmt"]) := by
  constructor
  · obtain ⟨o, ho⟩ : ∃ o, (build_extensions sysWin true false "1.0" compMingw extInit).1 =
        Except.ok o := ⟨_, rfl⟩
    refine ⟨o, ho, ?_⟩
    have h9 := (claim9_windows_runtime sysWin true false "1.0" compMingw extInit o ho).1 rfl
    rw [h9]
    decide
  · obtain ⟨o, ho⟩ : ∃ o, (build_extensions sysWin true false "1.0" compMsvc extInit).1 =
        Except.ok o := ⟨_, rfl⟩
    exact ⟨o, ho,
      (claim9_windows_runtime sysWin true false "1.0" compMsvc extInit o ho).2 rfl rfl⟩

/-- C10: on every successful run of `build_extensions` — in every
configuration, including use-system-libcares — the extension's
`extra_objects` are set to the one-element list holding the bundled
artifact path (`deps/c-ares/cares.lib` under MSVC, `deps/c-ares/libcares.a`
otherwise), the bundled `deps/c-ares/src` include directory is among the
compiler's include directories, and this happens before the trailing
delegation to the standard compilation procedure. -/
theorem claim10_bundled_attach (sys : Sys) (us cf : Bool) (req : String)
    (comp0 : Compiler) (e0 : Extension) (out : BEOut)
    (h : (build_extensions sys us cf req comp0 e0).1 = Except.ok out) :
    out.ext0.extra_objects =
      [if comp0.compiler_type = "msvc" then
         pathJoin sys.pathSep (pathJoin sys.pathSep "deps" "c-ares") "cares.lib"
       else pathJoin sys.pathSep (pathJoin sys.pathSep "deps" "c-ares") "libcares.a"]
    ∧ pathJoin sys.pathSep (pathJoin sys.pathSep "deps" "c-ares") "src" ∈
        out.compiler.include_dirs
    ∧ ∃ pre, (build_extensions sys us cf req comp0 e0).2 = pre ++ [Event.delegate] := by
  rcases build_extensions_cases sys us cf req comp0 e0 with ⟨er, t, heq⟩ | ⟨comp1, pre, hc1, heq⟩
  · rw [heq] at h
    simp at h
  · rw [heq] at h
    have hout : out = ⟨(beCore sys comp1 us e0).1, (beCore sys comp1 us e0).2⟩ :=
      (Except.ok.inj h).symm
    have htyp : comp1.compiler_type = comp0.compiler_type := by
      cases us with
      | true => exact (sysPart_ok sys req _ comp0 comp1 (hc1.1 rfl)).1
      | false => rw [hc1.2 rfl]
    refine ⟨?_, ?_, ?_⟩
    · rw [hout]
      show (beCore sys comp1 us e0).2.extra_objects = _
      have hobj : (beCore sys comp1 us e0).2.extra_objects =
          [caresLibPath sys comp1 us] := by
        simp only [beCore]
        exact finishSetup_objects _ _ _ _ _ _
      rw [hobj]
      unfold caresLibPath
      rw [midSetup_type, htyp]
    · rw [hout]
      show _ ∈ (beCore sys comp1 us e0).1.include_dirs
      have hinc := finishSetup_include sys.platform
        (pathJoin sys.pathSep "deps" "c-ares") (caresLibPath sys comp1 us)
        (pathJoin sys.pathSep (pathJoin sys.pathSep "deps" "c-ares") "src")
        (midSetup comp1 us) e0
      obtain ⟨pre2, hpre2⟩ := hinc
      have : (beCore sys comp1 us e0).1.include_dirs =
          pre2 ++ [pathJoin sys.pathSep (pathJoin sys.pathSep "deps" "c-ares") "src"] := by
        simp only [beCore]
        exact hpre2
      rw [this]
      simp
    · exact ⟨pre, by rw [heq]⟩

/-- Witness for C10: a use-system build on Linux still sets
`extra_objects` to the bundled artifact path and adds the bundled source
include directory. -/
theorem claim10_witness :
    ∃ o : BEOut, (build_extensions baseSys true false "1.0" compInit extInit).1 =
        Except.ok o
      ∧ o.ext0.extra_objects = ["deps/c-ares/libcares.a"]
      ∧ "deps/c-ares/src" ∈ o.compiler.include_dirs := by
  obtain ⟨o, ho⟩ : ∃ o, (build_extensions baseSys true false "1.0" compInit extInit).1 =
      Except.ok o := ⟨_, rfl⟩
  have h := claim10_bundled_attach baseSys true false "1.0" compInit extInit o ho
  refine ⟨o, ho, ?_, ?_⟩
  · rw [h.1]
    decide
  · have h2 := h.2.1
    have hp : pathJoin baseSys.pathSep (pathJoin baseSys.pathSep "deps" "c-ares") "src" =
        "deps/c-ares/src" := by decide
    rw [hp] at h2
    exact h2

/-- Witness for C3: with the clean flag set and the artifact present, the
first event is still the cleaning command invocation. -/
theorem claim3_witness :
    ∃ rest, (build_cares baseSys false true "deps/c-ares" "deps/c-ares/libcares.a").2 =
      cleanInvEvent baseSys false "deps/c-ares" :: rest :=
  (claim3_clean_invoked_first baseSys false "deps/c-ares" "deps/c-ares/libcares.a").2
